import Mathlib

/-
Verification development for the Dolphin network capture-logging slice:
the `Core::NetworkCaptureLogger` family declared in
Source/Core/Core/NetworkCaptureLogger.h and the socket-state introspection
helpers of the debugger's NetworkWidget. The logger method bodies are not part
of this slice (only the header declarations are), so those operations are
modelled from the specification, with the header's declared types kept
authoritative: the direction counters are `u32` (header lines 111-112) and the
internal `LogIPv4` frame synthesis receives its length as a `u16` (line 107).
-/

/-- Embedding of `enum class NetworkCaptureType` from NetworkCaptureLogger.h. -/
inductive NetworkCaptureType
  | None
  | Raw
  | PCAP
  deriving DecidableEq

/-- Embedding of `PCAPSSLCaptureLogger::LogType` (NetworkCaptureLogger.h line 91):
the direction of a logged event. -/
inductive LogType
  | Read
  | Write
  deriving DecidableEq

/-- Opposite direction: the acknowledgment number of a synthesized frame is taken
from the counter of the opposite direction. -/
def LogType.opposite : LogType → LogType
  | .Read => .Write
  | .Write => .Read

/-- Embedding of `sockaddr_in`: an IPv4 address and port. -/
structure SockAddrIn where
  sin_addr : Nat
  sin_port : Nat
  deriving DecidableEq

/-- Modelled from the spec: the zeroed placeholder address used when resolution
fails or the resolved family is unsupported. -/
def zeroAddr : SockAddrIn := ⟨0, 0⟩

/-- Embedding of `sockaddr`: an address-family tag together with address data. -/
structure SockAddr where
  sa_family : Nat
  addr : SockAddrIn
  deriving DecidableEq

/-- The `AF_INET` constant: the one network-layer address family the frame
synthesizer supports. -/
def AF_INET : Nat := 2

/-- Outcome of the addressing introspection performed while logging
(`getsockname` and `getpeername` on the socket): `none` models a failed call. -/
structure Resolution where
  local_addr : Option SockAddr
  peer_addr : Option SockAddr
  deriving DecidableEq

/-- Modelled from the spec: a resolved address is used only when the call
succeeded and returned the supported family; otherwise the zeroed placeholder
is used rather than failing the logging call. -/
def resolveAddr (o : Option SockAddr) : SockAddrIn :=
  match o with
  | some sa => if sa.sa_family = AF_INET then sa.addr else zeroAddr
  | none => zeroAddr

/-- Modelled from the spec: the peer side of the synthesized frame uses the
address supplied directly by the caller when present (the raw path), otherwise
the introspected peer address, degrading to the placeholder in either case when
unusable. -/
def peerOf (other : Option SockAddr) (res : Resolution) : SockAddrIn :=
  match other with
  | some sa => resolveAddr (some sa)
  | none => resolveAddr res.peer_addr

/-- A resolution outcome that gives the synthesizer nothing usable: each
introspection call either failed or returned an address outside the supported
family. -/
def badResolution (res : Resolution) : Prop :=
  (res.local_addr = none ∨ ∃ sa, res.local_addr = some sa ∧ sa.sa_family ≠ AF_INET) ∧
  (res.peer_addr = none ∨ ∃ sa, res.peer_addr = some sa ∧ sa.sa_family ≠ AF_INET)

/-- One capture record appended to the PCAP sink: the synthesized frame's
transport-layer sequence and acknowledgment numbers, the network-layer source
and destination addresses, the 16-bit length used to build the frame, and the
payload bytes. -/
structure PCAPRecord where
  seq : Nat
  ack : Nat
  source : SockAddrIn
  dest : SockAddrIn
  frame_length : Nat
  payload : List Nat
  deriving DecidableEq

/-- State of `PCAPSSLCaptureLogger`: the optional open sink `m_file` (`none`
models the sink having failed to open, which disables capture for the session)
holding the records appended so far, and the two direction byte counters.
The counters are declared `u32` in the header, so they are kept reduced modulo
2^32. -/
structure PCAPSSLCaptureLogger where
  m_file : Option (List PCAPRecord)
  m_read_sequence_number : Nat
  m_write_sequence_number : Nat
  deriving DecidableEq

/-- Modelled from the spec: construction opens the capture sink; on open failure
the sink handle stays null and capture is disabled for the whole session. Both
counters start at 0. -/
def PCAPSSLCaptureLogger.construct (open_ok : Bool) : PCAPSSLCaptureLogger :=
  ⟨if open_ok then some [] else none, 0, 0⟩

/-- The byte counter of the given direction. -/
def PCAPSSLCaptureLogger.counter (st : PCAPSSLCaptureLogger) : LogType → Nat
  | .Read => st.m_read_sequence_number
  | .Write => st.m_write_sequence_number

/-- Modelled from the spec: the frame built for one logged event (spec step 3).
The sequence number is direction `d`'s counter before the event's bytes are
added; the acknowledgment number is the opposite direction's counter at the
same instant; addressing degrades to the zeroed placeholder; the frame-building
length is the `u16` truncation of the call's length, forced by the `u16`
parameter of `LogIPv4` (header line 107) with one frame per logged event. -/
def PCAPSSLCaptureLogger.mkRecord (st : PCAPSSLCaptureLogger) (d : LogType)
    (payload : List Nat) (length : Nat) (other : Option SockAddr) (res : Resolution) :
    PCAPRecord :=
  { seq := st.counter d
    ack := st.counter d.opposite
    source := (match d with | .Read => peerOf other res | .Write => resolveAddr res.local_addr)
    dest := (match d with | .Read => resolveAddr res.local_addr | .Write => peerOf other res)
    frame_length := length % 65536
    payload := payload }

/-- Modelled from the spec: `PCAPSSLCaptureLogger::Log` (its body is outside
this slice; the header declares it at line 106). When the sink failed to open
the call is a no-op. Otherwise one frame is synthesized (`mkRecord`), direction
`d`'s counter advances by the call's length modulo 2^32 (the counters are
`u32`), and the record is appended unless the individual sink append fails
(`append_ok = false`), in which case the record is dropped while the call still
returns normally and the counter still advances. -/
def PCAPSSLCaptureLogger.Log (st : PCAPSSLCaptureLogger) (d : LogType)
    (payload : List Nat) (length : Nat) (_socket : Int) (other : Option SockAddr)
    (res : Resolution) (append_ok : Bool) : PCAPSSLCaptureLogger :=
  match st.m_file with
  | none => st
  | some recs =>
      let recs2 := if append_ok then recs ++ [st.mkRecord d payload length other res] else recs
      match d with
      | .Read =>
          ⟨some recs2, (st.m_read_sequence_number + length) % 4294967296,
            st.m_write_sequence_number⟩
      | .Write =>
          ⟨some recs2, st.m_read_sequence_number,
            (st.m_write_sequence_number + length) % 4294967296⟩

/-- Modelled from the spec: `LogSSLRead` logs a decrypted read; no peer address
is supplied at the call site, so addressing comes from introspection alone. -/
def PCAPSSLCaptureLogger.LogSSLRead (st : PCAPSSLCaptureLogger) (payload : List Nat)
    (length : Nat) (socket : Int) (res : Resolution) (append_ok : Bool) :
    PCAPSSLCaptureLogger :=
  st.Log .Read payload length socket none res append_ok

/-- Modelled from the spec: `LogSSLWrite` logs a decrypted write. -/
def PCAPSSLCaptureLogger.LogSSLWrite (st : PCAPSSLCaptureLogger) (payload : List Nat)
    (length : Nat) (socket : Int) (res : Resolution) (append_ok : Bool) :
    PCAPSSLCaptureLogger :=
  st.Log .Write payload length socket none res append_ok

/-- Modelled from the spec: `LogRead` logs a plaintext read with the peer
address already known to the caller. -/
def PCAPSSLCaptureLogger.LogRead (st : PCAPSSLCaptureLogger) (payload : List Nat)
    (length : Nat) (socket : Int) (from_addr : SockAddr) (res : Resolution)
    (append_ok : Bool) : PCAPSSLCaptureLogger :=
  st.Log .Read payload length socket (some from_addr) res append_ok

/-- Modelled from the spec: `LogWrite` logs a plaintext write with the peer
address already known to the caller. -/
def PCAPSSLCaptureLogger.LogWrite (st : PCAPSSLCaptureLogger) (payload : List Nat)
    (length : Nat) (socket : Int) (to_addr : SockAddr) (res : Resolution)
    (append_ok : Bool) : PCAPSSLCaptureLogger :=
  st.Log .Write payload length socket (some to_addr) res append_ok

/-- The PacketCapture variant reports its capture type as PCAP. -/
def PCAPSSLCaptureLogger.GetCaptureType (_st : PCAPSSLCaptureLogger) : NetworkCaptureType :=
  .PCAP

/-- One logging invocation on the PacketCapture variant, with all of the
per-call oracle inputs: direction, payload, declared payload length, socket,
optional caller-supplied peer address, introspection outcome, and whether the
individual sink append succeeds. -/
structure LogCall where
  dir : LogType
  payload : List Nat
  length : Nat
  socket : Int
  other : Option SockAddr
  res : Resolution
  append_ok : Bool
  deriving DecidableEq

/-- Replay a sequence of logging calls, in call order, on a PacketCapture
logger state. -/
def PCAPSSLCaptureLogger.run (st : PCAPSSLCaptureLogger) (cs : List LogCall) :
    PCAPSSLCaptureLogger :=
  cs.foldl (fun s c => s.Log c.dir c.payload c.length c.socket c.other c.res c.append_ok) st

/-- Total payload bytes of the read-direction calls in a sequence. -/
def readBytes : List LogCall → Nat
  | [] => 0
  | c :: cs => (match c.dir with | .Read => c.length | .Write => 0) + readBytes cs

/-- Total payload bytes of the write-direction calls in a sequence. -/
def writeBytes : List LogCall → Nat
  | [] => 0
  | c :: cs => (match c.dir with | .Write => c.length | .Read => 0) + writeBytes cs

/-- Platform socket-error indicator (`errno`; the Windows WSA error is the same
single indicator in this model). -/
structure Platform where
  errno : Int
  deriving DecidableEq

/-- Embedding of `PCAPSSLCaptureLogger::ErrorState` (header line 96): a saved
copy of the platform's socket-error indicator. -/
structure ErrorState where
  error : Int
  deriving DecidableEq

/-- Modelled from the spec: `SaveState` snapshots the platform's current
socket-error indicator on guard acquisition. -/
def SaveState (p : Platform) : ErrorState := ⟨p.errno⟩

/-- Modelled from the spec: `RestoreState` restores exactly the snapshot taken
by `SaveState`, whatever the indicator was changed to in between. -/
def RestoreState (_p : Platform) (e : ErrorState) : Platform := ⟨e.error⟩

/-- Modelled from the spec: a PacketCapture logging call with the error-state
guard wrapped around its introspection. The introspection oracle may return any
resolution (success or failure) and may clobber the platform error indicator
arbitrarily; the guard saves the indicator on entry and restores the snapshot
on every exit path. -/
def PCAPSSLCaptureLogger.LogGuarded (st : PCAPSSLCaptureLogger) (p : Platform)
    (d : LogType) (payload : List Nat) (length : Nat) (socket : Int)
    (other : Option SockAddr) (introspect : Int → Platform → Resolution × Platform)
    (append_ok : Bool) : PCAPSSLCaptureLogger × Platform :=
  let saved := SaveState p
  let rp := introspect socket p
  (st.Log d payload length socket other rp.1 append_ok, RestoreState rp.2 saved)

/-- One logging invocation on the None or RawDump variant: the four operations
of the `NetworkCaptureLogger` interface with their arguments. -/
inductive RawCall
  | sslRead (payload : List Nat) (socket : Int)
  | sslWrite (payload : List Nat) (socket : Int)
  | rawRead (payload : List Nat) (socket : Int) (from_addr : SockAddr)
  | rawWrite (payload : List Nat) (socket : Int) (to_addr : SockAddr)
  deriving DecidableEq

/-- Modelled from the spec: the None variant's `LogSSLRead` is a no-op; the
sink (a flat byte store) is passed explicitly so that leaving it untouched is
observable. -/
def DummyNetworkCaptureLogger.LogSSLRead (sink : List Nat) (_payload : List Nat)
    (_socket : Int) : List Nat :=
  sink

/-- Modelled from the spec: the None variant's `LogSSLWrite` is a no-op. -/
def DummyNetworkCaptureLogger.LogSSLWrite (sink : List Nat) (_payload : List Nat)
    (_socket : Int) : List Nat :=
  sink

/-- Modelled from the spec: the None variant's `LogRead` is a no-op. -/
def DummyNetworkCaptureLogger.LogRead (sink : List Nat) (_payload : List Nat)
    (_socket : Int) (_from_addr : SockAddr) : List Nat :=
  sink

/-- Modelled from the spec: the None variant's `LogWrite` is a no-op. -/
def DummyNetworkCaptureLogger.LogWrite (sink : List Nat) (_payload : List Nat)
    (_socket : Int) (_to_addr : SockAddr) : List Nat :=
  sink

/-- The None variant reports its capture type as None. -/
def DummyNetworkCaptureLogger.GetCaptureType : NetworkCaptureType := .None

/-- Dispatch one interface call on the None variant. -/
def DummyNetworkCaptureLogger.step (sink : List Nat) : RawCall → List Nat
  | .sslRead pl s => DummyNetworkCaptureLogger.LogSSLRead sink pl s
  | .sslWrite pl s => DummyNetworkCaptureLogger.LogSSLWrite sink pl s
  | .rawRead pl s a => DummyNetworkCaptureLogger.LogRead sink pl s a
  | .rawWrite pl s a => DummyNetworkCaptureLogger.LogWrite sink pl s a

/-- Replay a sequence of interface calls on the None variant. -/
def DummyNetworkCaptureLogger.run (sink : List Nat) (cs : List RawCall) : List Nat :=
  cs.foldl DummyNetworkCaptureLogger.step sink

/-- Modelled from the spec: the RawDump variant's `LogSSLRead` appends the
decrypted payload bytes verbatim to the flat sink, with no framing, timestamp
or separator. -/
def BinarySSLCaptureLogger.LogSSLRead (sink : List Nat) (payload : List Nat)
    (_socket : Int) : List Nat :=
  sink ++ payload

/-- Modelled from the spec: the RawDump variant's `LogSSLWrite` appends the
decrypted payload bytes verbatim to the flat sink. -/
def BinarySSLCaptureLogger.LogSSLWrite (sink : List Nat) (payload : List Nat)
    (_socket : Int) : List Nat :=
  sink ++ payload

/-- The RawDump variant's `LogRead` is the one inherited from
`DummyNetworkCaptureLogger` (header line 67), hence a no-op. -/
def BinarySSLCaptureLogger.LogRead (sink : List Nat) (payload : List Nat)
    (socket : Int) (from_addr : SockAddr) : List Nat :=
  DummyNetworkCaptureLogger.LogRead sink payload socket from_addr

/-- The RawDump variant's `LogWrite` is the one inherited from
`DummyNetworkCaptureLogger`, hence a no-op. -/
def BinarySSLCaptureLogger.LogWrite (sink : List Nat) (payload : List Nat)
    (socket : Int) (to_addr : SockAddr) : List Nat :=
  DummyNetworkCaptureLogger.LogWrite sink payload socket to_addr

/-- The RawDump variant reports its capture type as Raw. -/
def BinarySSLCaptureLogger.GetCaptureType : NetworkCaptureType := .Raw

/-- Dispatch one interface call on the RawDump variant. -/
def BinarySSLCaptureLogger.step (sink : List Nat) : RawCall → List Nat
  | .sslRead pl s => BinarySSLCaptureLogger.LogSSLRead sink pl s
  | .sslWrite pl s => BinarySSLCaptureLogger.LogSSLWrite sink pl s
  | .rawRead pl s a => BinarySSLCaptureLogger.LogRead sink pl s a
  | .rawWrite pl s a => BinarySSLCaptureLogger.LogWrite sink pl s a

/-- Replay a sequence of interface calls on the RawDump variant. -/
def BinarySSLCaptureLogger.run (sink : List Nat) (cs : List RawCall) : List Nat :=
  cs.foldl BinarySSLCaptureLogger.step sink

/-- The concatenation, in call order, of the decrypted (SSL-path) payloads of a
call sequence: the bytes the RawDump variant is specified to emit. -/
def sslBytes : List RawCall → List Nat
  | [] => []
  | .sslRead pl _ :: cs => pl ++ sslBytes cs
  | .sslWrite pl _ :: cs => pl ++ sslBytes cs
  | .rawRead _ _ _ :: cs => sslBytes cs
  | .rawWrite _ _ _ :: cs => sslBytes cs

/-- Embedding of `GetSocketState` from the NetworkWidget source
(src/unnamed/part_000 lines 74-91): `peer_ok` models `getpeername` returning 0,
`accept_result` models the `SO_ACCEPTCONN` `getsockopt` call (`some v` when it
returns 0 with value `v`, `none` when it fails). The returned string is the
table cell's text; the empty string is the empty `QTableWidgetItem`. -/
def GetSocketState (host_fd : Int) (peer_ok : Bool) (accept_result : Option Int) : String :=
  if host_fd < 0 then ""
  else if peer_ok then "Connected"
  else
    match accept_result with
    | some so_accept => if 0 < so_accept then "Listening" else "Unbound"
    | none => "Unbound"

/-- Embedding of `GetSocketDomain` from the NetworkWidget source (lines 29-49):
`name_result` models `getsockname` (`some family` on success, `none` on
failure). -/
def GetSocketDomain (host_fd : Int) (name_result : Option Nat) : String :=
  if host_fd < 0 then ""
  else
    match name_result with
    | none => "Unknown"
    | some 2 => "AF_INET"
    | some 23 => "AF_INET6"
    | some fam => toString fam

/-- Embedding of `GetSocketType` from the NetworkWidget source (lines 51-72):
`opt_result` models the `SO_TYPE` `getsockopt` call. -/
def GetSocketType (host_fd : Int) (opt_result : Option Nat) : String :=
  if host_fd < 0 then ""
  else
    match opt_result with
    | none => "Unknown"
    | some 1 => "SOCK_STREAM"
    | some 2 => "SOCK_DGRAM"
    | some so_type => toString so_type

/-- A logging call on a PacketCapture logger whose sink failed to open leaves
the state untouched. -/
theorem Log_of_none (st : PCAPSSLCaptureLogger) (h : st.m_file = none) (d : LogType)
    (pl : List Nat) (n : Nat) (sock : Int) (other : Option SockAddr) (res : Resolution)
    (ok : Bool) : st.Log d pl n sock other res ok = st := by
  simp [PCAPSSLCaptureLogger.Log, h]

/-- Unfolding of a read-direction logging call on an open sink. -/
theorem Log_read (st : PCAPSSLCaptureLogger) (recs : List PCAPRecord)
    (h : st.m_file = some recs) (pl : List Nat) (n : Nat) (sock : Int)
    (other : Option SockAddr) (res : Resolution) (ok : Bool) :
    st.Log .Read pl n sock other res ok =
      ⟨some (if ok then recs ++ [st.mkRecord .Read pl n other res] else recs),
        (st.m_read_sequence_number + n) % 4294967296, st.m_write_sequence_number⟩ := by
  simp [PCAPSSLCaptureLogger.Log, h]

/-- Unfolding of a write-direction logging call on an open sink. -/
theorem Log_write (st : PCAPSSLCaptureLogger) (recs : List PCAPRecord)
    (h : st.m_file = some recs) (pl : List Nat) (n : Nat) (sock : Int)
    (other : Option SockAddr) (res : Resolution) (ok : Bool) :
    st.Log .Write pl n sock other res ok =
      ⟨some (if ok then recs ++ [st.mkRecord .Write pl n other res] else recs),
        st.m_read_sequence_number, (st.m_write_sequence_number + n) % 4294967296⟩ := by
  simp [PCAPSSLCaptureLogger.Log, h]

/-- Replaying a call sequence processes the head call first. -/
theorem run_cons (st : PCAPSSLCaptureLogger) (c : LogCall) (cs : List LogCall) :
    st.run (c :: cs) =
      (st.Log c.dir c.payload c.length c.socket c.other c.res c.append_ok).run cs := rfl

/-- Replaying any call sequence on a logger whose sink failed to open leaves
the state untouched. -/
theorem run_of_none (cs : List LogCall) :
    ∀ st : PCAPSSLCaptureLogger, st.m_file = none → st.run cs = st := by
  induction cs with
  | nil => intro st _; rfl
  | cons c cs ih =>
    intro st h
    rw [run_cons, Log_of_none st h]
    exact ih st h

/-- Replaying a call sequence on an open logger with in-range counters adds the
per-direction payload totals to the counters, modulo 2^32. -/
theorem run_counters (cs : List LogCall) :
    ∀ (st : PCAPSSLCaptureLogger) (recs : List PCAPRecord), st.m_file = some recs →
      st.m_read_sequence_number < 4294967296 →
      st.m_write_sequence_number < 4294967296 →
      (st.run cs).m_read_sequence_number =
          (st.m_read_sequence_number + readBytes cs) % 4294967296 ∧
        (st.run cs).m_write_sequence_number =
          (st.m_write_sequence_number + writeBytes cs) % 4294967296 := by
  induction cs with
  | nil =>
    intro st recs h hr hw
    refine ⟨?_, ?_⟩
    · show st.m_read_sequence_number =
        (st.m_read_sequence_number + readBytes []) % 4294967296
      rw [show readBytes ([] : List LogCall) = 0 from rfl, Nat.add_zero,
        Nat.mod_eq_of_lt hr]
    · show st.m_write_sequence_number =
        (st.m_write_sequence_number + writeBytes []) % 4294967296
      rw [show writeBytes ([] : List LogCall) = 0 from rfl, Nat.add_zero,
        Nat.mod_eq_of_lt hw]
  | cons c cs ih =>
    intro st recs h hr hw
    obtain ⟨d, pl, n, sock, other, res, ok⟩ := c
    cases d with
    | Read =>
      have hc : st.run (⟨LogType.Read, pl, n, sock, other, res, ok⟩ :: cs) =
          (st.Log .Read pl n sock other res ok).run cs := rfl
      rw [hc, Log_read st recs h]
      obtain ⟨h1, h2⟩ := ih
        ⟨some (if ok then recs ++ [st.mkRecord .Read pl n other res] else recs),
          (st.m_read_sequence_number + n) % 4294967296, st.m_write_sequence_number⟩
        (if ok then recs ++ [st.mkRecord .Read pl n other res] else recs)
        rfl (Nat.mod_lt _ (by norm_num)) hw
      refine ⟨?_, ?_⟩
      · rw [h1, Nat.mod_add_mod, Nat.add_assoc,
          show readBytes (⟨LogType.Read, pl, n, sock, other, res, ok⟩ :: cs) =
            n + readBytes cs from rfl]
      · rw [h2, show writeBytes (⟨LogType.Read, pl, n, sock, other, res, ok⟩ :: cs) =
          0 + writeBytes cs from rfl, Nat.zero_add]
    | Write =>
      have hc : st.run (⟨LogType.Write, pl, n, sock, other, res, ok⟩ :: cs) =
          (st.Log .Write pl n sock other res ok).run cs := rfl
      rw [hc, Log_write st recs h]
      obtain ⟨h1, h2⟩ := ih
        ⟨some (if ok then recs ++ [st.mkRecord .Write pl n other res] else recs),
          st.m_read_sequence_number, (st.m_write_sequence_number + n) % 4294967296⟩
        (if ok then recs ++ [st.mkRecord .Write pl n other res] else recs)
        rfl hr (Nat.mod_lt _ (by norm_num))
      refine ⟨?_, ?_⟩
      · rw [h1, show readBytes (⟨LogType.Write, pl, n, sock, other, res, ok⟩ :: cs) =
          0 + readBytes cs from rfl, Nat.zero_add]
      · rw [h2, Nat.mod_add_mod, Nat.add_assoc,
          show writeBytes (⟨LogType.Write, pl, n, sock, other, res, ok⟩ :: cs) =
            n + writeBytes cs from rfl]

/-- Unusable introspection results degrade to the zeroed placeholder address. -/
theorem resolveAddr_of_bad (o : Option SockAddr)
    (h : o = none ∨ ∃ sa, o = some sa ∧ sa.sa_family ≠ AF_INET) :
    resolveAddr o = zeroAddr := by
  rcases h with h | ⟨sa, h, hfam⟩
  · rw [h]; rfl
  · rw [h]; simp [resolveAddr, hfam]

/-- The None variant leaves any sink unchanged under any call sequence. -/
theorem dummy_run_id (cs : List RawCall) : ∀ sink : List Nat,
    DummyNetworkCaptureLogger.run sink cs = sink := by
  induction cs with
  | nil => intro sink; rfl
  | cons c cs ih =>
    intro sink
    have hstep : DummyNetworkCaptureLogger.step sink c = sink := by
      cases c <;> rfl
    calc DummyNetworkCaptureLogger.run sink (c :: cs)
        = DummyNetworkCaptureLogger.run (DummyNetworkCaptureLogger.step sink c) cs := rfl
      _ = sink := by rw [hstep]; exact ih sink

/-- The RawDump variant appends exactly the decrypted payloads, in call order. -/
theorem binary_run_append (cs : List RawCall) : ∀ sink : List Nat,
    BinarySSLCaptureLogger.run sink cs = sink ++ sslBytes cs := by
  induction cs with
  | nil => intro sink; simp [BinarySSLCaptureLogger.run, sslBytes]
  | cons c cs ih =>
    intro sink
    cases c with
    | sslRead pl s =>
      calc BinarySSLCaptureLogger.run sink (.sslRead pl s :: cs)
          = BinarySSLCaptureLogger.run (sink ++ pl) cs := rfl
        _ = (sink ++ pl) ++ sslBytes cs := ih (sink ++ pl)
        _ = sink ++ sslBytes (.sslRead pl s :: cs) := by
            rw [show sslBytes (.sslRead pl s :: cs) = pl ++ sslBytes cs from rfl,
              List.append_assoc]
    | sslWrite pl s =>
      calc BinarySSLCaptureLogger.run sink (.sslWrite pl s :: cs)
          = BinarySSLCaptureLogger.run (sink ++ pl) cs := rfl
        _ = (sink ++ pl) ++ sslBytes cs := ih (sink ++ pl)
        _ = sink ++ sslBytes (.sslWrite pl s :: cs) := by
            rw [show sslBytes (.sslWrite pl s :: cs) = pl ++ sslBytes cs from rfl,
              List.append_assoc]
    | rawRead pl s a =>
      calc BinarySSLCaptureLogger.run sink (.rawRead pl s a :: cs)
          = BinarySSLCaptureLogger.run sink cs := rfl
        _ = sink ++ sslBytes cs := ih sink
        _ = sink ++ sslBytes (.rawRead pl s a :: cs) := rfl
    | rawWrite pl s a =>
      calc BinarySSLCaptureLogger.run sink (.rawWrite pl s a :: cs)
          = BinarySSLCaptureLogger.run sink cs := rfl
        _ = sink ++ sslBytes cs := ih sink
        _ = sink ++ sslBytes (.rawWrite pl s a :: cs) := rfl

/-- The socket-state cell text is always one of the four produced values. -/
theorem GetSocketState_cases (host_fd : Int) (peer_ok : Bool) (accept_result : Option Int) :
    GetSocketState host_fd peer_ok accept_result = "" ∨
      GetSocketState host_fd peer_ok accept_result = "Connected" ∨
      GetSocketState host_fd peer_ok accept_result = "Listening" ∨
      GetSocketState host_fd peer_ok accept_result = "Unbound" := by
  unfold GetSocketState
  split
  · exact Or.inl rfl
  · split
    · exact Or.inr (Or.inl rfl)
    · split
      · split
        · exact Or.inr (Or.inr (Or.inl rfl))
        · exact Or.inr (Or.inr (Or.inr rfl))
      · exact Or.inr (Or.inr (Or.inr rfl))

/-- C1: every synthesized frame's sequence number equals the logged direction's
byte counter before that event's bytes are added, and its acknowledgment number
equals the opposite direction's counter at that same instant; in particular,
after a fresh PacketCapture logger handles LogSSLRead of 100 bytes then
LogSSLWrite of 50 bytes, the first record's ack number is 0 and the second
record's ack number is 100 (with read counter 100 and write counter 50). -/
theorem claim_C1 (st : PCAPSSLCaptureLogger) (recs : List PCAPRecord)
    (h : st.m_file = some recs) (d : LogType) (pl : List Nat) (n : Nat) (sock : Int)
    (other : Option SockAddr) (res : Resolution) :
    (∃ r : PCAPRecord,
        (st.Log d pl n sock other res true).m_file = some (recs ++ [r]) ∧
          r.seq = st.counter d ∧ r.ack = st.counter d.opposite) ∧
      (∃ r1 r2 : PCAPRecord,
        (((PCAPSSLCaptureLogger.construct true).LogSSLRead (List.replicate 100 7) 100 5
              ⟨none, none⟩ true).LogSSLWrite (List.replicate 50 7) 50 5
            ⟨none, none⟩ true).m_file = some [r1, r2] ∧
          r1.ack = 0 ∧ r2.ack = 100 ∧ r1.seq = 0 ∧ r2.seq = 0 ∧
          (((PCAPSSLCaptureLogger.construct true).LogSSLRead (List.replicate 100 7) 100 5
              ⟨none, none⟩ true).LogSSLWrite (List.replicate 50 7) 50 5
            ⟨none, none⟩ true).m_read_sequence_number = 100 ∧
          (((PCAPSSLCaptureLogger.construct true).LogSSLRead (List.replicate 100 7) 100 5
              ⟨none, none⟩ true).LogSSLWrite (List.replicate 50 7) 50 5
            ⟨none, none⟩ true).m_write_sequence_number = 50) := by
  constructor
  · refine ⟨st.mkRecord d pl n other res, ?_, rfl, rfl⟩
    cases d
    · rw [Log_read st recs h]; rfl
    · rw [Log_write st recs h]; rfl
  · exact ⟨⟨0, 0, zeroAddr, zeroAddr, 100, List.replicate 100 7⟩,
      ⟨0, 100, zeroAddr, zeroAddr, 50, List.replicate 50 7⟩,
      rfl, rfl, rfl, rfl, rfl, rfl, rfl⟩

/-- Witness for C1 at a concrete state and call. -/
theorem claim_C1_witness :
    ∃ r : PCAPRecord,
      ((PCAPSSLCaptureLogger.construct true).Log .Read [1, 2] 2 5 none ⟨none, none⟩
          true).m_file = some ([] ++ [r]) ∧
        r.seq = (PCAPSSLCaptureLogger.construct true).counter .Read ∧
        r.ack = (PCAPSSLCaptureLogger.construct true).counter LogType.Read.opposite :=
  (claim_C1 (PCAPSSLCaptureLogger.construct true) [] rfl .Read [1, 2] 2 5 none
    ⟨none, none⟩).1

/-- C2 as stated fails on the `u32` counters: one read call of 2^32 bytes on a
fresh PacketCapture logger leaves the read counter at 0, not at 0 + 2^32. -/
theorem claim_C2_counterexample :
    ((PCAPSSLCaptureLogger.construct true).Log .Read [] 4294967296 5 none ⟨none, none⟩
        true).m_read_sequence_number = 0 ∧
      (0 : Nat) ≠ 0 + 4294967296 :=
  ⟨rfl, by decide⟩

/-- C2 amended: on a PacketCapture instance with an open sink and in-range
counters, after any sequence of logging calls the read counter equals the
initial value plus the total read-direction payload bytes reduced modulo 2^32,
and likewise for writes; moreover a call whose individual sink append fails
leaves the records untouched (the record is dropped) while the direction
counter still advances by the call's payload length modulo 2^32. -/
theorem claim_C2_amended (st : PCAPSSLCaptureLogger) (recs : List PCAPRecord)
    (h : st.m_file = some recs) (hr : st.m_read_sequence_number < 4294967296)
    (hw : st.m_write_sequence_number < 4294967296) (cs : List LogCall) :
    ((st.run cs).m_read_sequence_number =
        (st.m_read_sequence_number + readBytes cs) % 4294967296 ∧
      (st.run cs).m_write_sequence_number =
        (st.m_write_sequence_number + writeBytes cs) % 4294967296) ∧
      ∀ (d : LogType) (pl : List Nat) (n : Nat) (sock : Int) (other : Option SockAddr)
        (res : Resolution),
        (st.Log d pl n sock other res false).m_file = st.m_file ∧
          (st.Log d pl n sock other res false).counter d =
            (st.counter d + n) % 4294967296 := by
  refine ⟨run_counters cs st recs h hr hw, ?_⟩
  intro d pl n sock other res
  cases d
  · rw [Log_read st recs h, h]
    exact ⟨rfl, rfl⟩
  · rw [Log_write st recs h, h]
    exact ⟨rfl, rfl⟩

/-- Witness for the amended C2 at a concrete state and call sequence, with the
single call's append failing. -/
theorem claim_C2_witness :
    ((PCAPSSLCaptureLogger.construct true).run
          [⟨LogType.Read, [1, 2, 3], 3, 5, none, ⟨none, none⟩, false⟩]).m_read_sequence_number =
      ((PCAPSSLCaptureLogger.construct true).m_read_sequence_number +
          readBytes [⟨LogType.Read, [1, 2, 3], 3, 5, none, ⟨none, none⟩, false⟩]) %
        4294967296 :=
  ((claim_C2_amended (PCAPSSLCaptureLogger.construct true) [] rfl (by decide) (by decide)
      [⟨LogType.Read, [1, 2, 3], 3, 5, none, ⟨none, none⟩, false⟩]).1).1

/-- C3: the error-state guard makes logging invisible to the platform error
indicator: for every introspection oracle — succeeding or failing, clobbering
the indicator arbitrarily — the indicator observed after the guarded logging
call equals the indicator observed before it, and the logger state is exactly
what the unguarded logging step produces for the oracle's resolution. -/
theorem claim_C3 (st : PCAPSSLCaptureLogger) (p : Platform) (d : LogType) (pl : List Nat)
    (n : Nat) (sock : Int) (other : Option SockAddr)
    (introspect : Int → Platform → Resolution × Platform) (ok : Bool) :
    (st.LogGuarded p d pl n sock other introspect ok).2.errno = p.errno ∧
      (st.LogGuarded p d pl n sock other introspect ok).1 =
        st.Log d pl n sock other (introspect sock p).1 ok :=
  ⟨rfl, rfl⟩

/-- C4: when the sink fails to open at construction, every subsequent logging
call is a no-op: the state stays the freshly constructed disabled state, no
record exists, and both byte counters remain 0. -/
theorem claim_C4 (cs : List LogCall) :
    (PCAPSSLCaptureLogger.construct false).run cs = PCAPSSLCaptureLogger.construct false ∧
      ((PCAPSSLCaptureLogger.construct false).run cs).m_file = none ∧
      ((PCAPSSLCaptureLogger.construct false).run cs).m_read_sequence_number = 0 ∧
      ((PCAPSSLCaptureLogger.construct false).run cs).m_write_sequence_number = 0 := by
  have h := run_of_none cs (PCAPSSLCaptureLogger.construct false) rfl
  refine ⟨h, ?_, ?_, ?_⟩ <;> rw [h] <;> rfl

/-- C5: on the RawDump variant the sink content is exactly the concatenation of
the decrypted payloads in call order, with no framing or separators; the
plaintext LogRead/LogWrite operations are no-ops; the capture type is Raw. -/
theorem claim_C5 (cs : List RawCall) :
    BinarySSLCaptureLogger.run [] cs = sslBytes cs ∧
      (∀ (sink pl : List Nat) (s : Int) (a : SockAddr),
          BinarySSLCaptureLogger.LogRead sink pl s a = sink ∧
            BinarySSLCaptureLogger.LogWrite sink pl s a = sink) ∧
      BinarySSLCaptureLogger.GetCaptureType = NetworkCaptureType.Raw := by
  refine ⟨?_, fun _ _ _ _ => ⟨rfl, rfl⟩, rfl⟩
  simpa using binary_run_append cs []

/-- C6: every logging operation of the None variant is a no-op, GetCaptureType
returns None, and after any sequence of logging calls the sink is untouched. -/
theorem claim_C6 (sink : List Nat) (cs : List RawCall) :
    DummyNetworkCaptureLogger.run sink cs = sink ∧
      DummyNetworkCaptureLogger.GetCaptureType = NetworkCaptureType.None ∧
      (∀ (pl : List Nat) (s : Int), DummyNetworkCaptureLogger.LogSSLRead sink pl s = sink) ∧
      (∀ (pl : List Nat) (s : Int), DummyNetworkCaptureLogger.LogSSLWrite sink pl s = sink) ∧
      (∀ (pl : List Nat) (s : Int) (a : SockAddr),
          DummyNetworkCaptureLogger.LogRead sink pl s a = sink) ∧
      ∀ (pl : List Nat) (s : Int) (a : SockAddr),
        DummyNetworkCaptureLogger.LogWrite sink pl s a = sink :=
  ⟨dummy_run_id cs sink, rfl, fun _ _ => rfl, fun _ _ => rfl, fun _ _ _ => rfl,
    fun _ _ _ => rfl⟩

/-- C7: when address resolution fails or yields an unsupported family, a record
is still produced, with the zeroed placeholder source and destination, and its
payload, sequence and acknowledgment numbers (and frame length) are exactly
those any other resolution outcome would produce. -/
theorem claim_C7 (st : PCAPSSLCaptureLogger) (recs : List PCAPRecord)
    (h : st.m_file = some recs) (d : LogType) (pl : List Nat) (n : Nat) (sock : Int)
    (res : Resolution) (hbad : badResolution res) :
    ∃ r : PCAPRecord,
      (st.Log d pl n sock none res true).m_file = some (recs ++ [r]) ∧
        r.source = zeroAddr ∧ r.dest = zeroAddr ∧
        ∀ res2 : Resolution, ∃ r2 : PCAPRecord,
          (st.Log d pl n sock none res2 true).m_file = some (recs ++ [r2]) ∧
            r2.payload = r.payload ∧ r2.seq = r.seq ∧ r2.ack = r.ack ∧
            r2.frame_length = r.frame_length := by
  have hl : resolveAddr res.local_addr = zeroAddr := resolveAddr_of_bad _ hbad.1
  have hp : peerOf none res = zeroAddr := by
    rw [show peerOf none res = resolveAddr res.peer_addr from rfl]
    exact resolveAddr_of_bad _ hbad.2
  refine ⟨st.mkRecord d pl n none res, ?_, ?_, ?_, ?_⟩
  · cases d
    · rw [Log_read st recs h]; rfl
    · rw [Log_write st recs h]; rfl
  · cases d <;> simp [PCAPSSLCaptureLogger.mkRecord, hl, hp]
  · cases d <;> simp [PCAPSSLCaptureLogger.mkRecord, hl, hp]
  · intro res2
    refine ⟨st.mkRecord d pl n none res2, ?_, rfl, rfl, rfl, rfl⟩
    cases d
    · rw [Log_read st recs h]; rfl
    · rw [Log_write st recs h]; rfl

/-- Witness for C7 at a concrete state, with a failed local resolution and a
peer resolved to the unsupported family 23 (AF_INET6). -/
theorem claim_C7_witness :
    ∃ r : PCAPRecord,
      ((PCAPSSLCaptureLogger.construct true).Log .Read [9] 1 3 none
            ⟨none, some ⟨23, ⟨1, 2⟩⟩⟩ true).m_file = some ([] ++ [r]) ∧
        r.source = zeroAddr ∧ r.dest = zeroAddr ∧
        ∀ res2 : Resolution, ∃ r2 : PCAPRecord,
          ((PCAPSSLCaptureLogger.construct true).Log .Read [9] 1 3 none res2
                true).m_file = some ([] ++ [r2]) ∧
            r2.payload = r.payload ∧ r2.seq = r.seq ∧ r2.ack = r.ack ∧
            r2.frame_length = r.frame_length :=
  claim_C7 (PCAPSSLCaptureLogger.construct true) [] rfl .Read [9] 1 3
    ⟨none, some ⟨23, ⟨1, 2⟩⟩⟩ ⟨Or.inl rfl, Or.inr ⟨⟨23, ⟨1, 2⟩⟩, rfl, by decide⟩⟩

/-- C9: the counters are 32-bit: every counter update is reduced modulo 2^32
and stays below 2^32; once a direction's cumulative logged payload reaches
2^32 the counter is smaller than the cumulative total (it wrapped); concretely,
a read counter at 4294967295 advances by 2 to 1, a smaller value, so
monotonicity only holds below 2^32. -/
theorem claim_C9 (st : PCAPSSLCaptureLogger) (recs : List PCAPRecord)
    (h : st.m_file = some recs) (d : LogType) (pl : List Nat) (n : Nat) (sock : Int)
    (other : Option SockAddr) (res : Resolution) (ok : Bool) :
    ((st.Log d pl n sock other res ok).counter d = (st.counter d + n) % 4294967296 ∧
        (st.Log d pl n sock other res ok).counter d < 4294967296) ∧
      (∀ cs : List LogCall, 4294967296 ≤ readBytes cs →
          ((PCAPSSLCaptureLogger.construct true).run cs).m_read_sequence_number <
            readBytes cs) ∧
      (((PCAPSSLCaptureLogger.construct true).Log .Read [] 4294967295 5 none ⟨none, none⟩
              true).Log .Read [] 2 5 none ⟨none, none⟩ true).m_read_sequence_number = 1 ∧
      ((PCAPSSLCaptureLogger.construct true).Log .Read [] 4294967295 5 none ⟨none, none⟩
          true).m_read_sequence_number = 4294967295 := by
  refine ⟨?_, ?_, rfl, rfl⟩
  · cases d
    · rw [Log_read st recs h]
      exact ⟨rfl, Nat.mod_lt _ (by norm_num)⟩
    · rw [Log_write st recs h]
      exact ⟨rfl, Nat.mod_lt _ (by norm_num)⟩
  · intro cs hcs
    have hrc := (run_counters cs (PCAPSSLCaptureLogger.construct true) [] rfl
      (by decide) (by decide)).1
    rw [hrc]
    exact lt_of_lt_of_le (Nat.mod_lt _ (by norm_num)) hcs

/-- Witness for C9 at a concrete state, call, and wrapping call sequence. -/
theorem claim_C9_witness :
    ((PCAPSSLCaptureLogger.construct true).Log .Read [4] 4 9 none ⟨none, none⟩
          true).counter .Read =
        ((PCAPSSLCaptureLogger.construct true).counter .Read + 4) % 4294967296 ∧
      ((PCAPSSLCaptureLogger.construct true).run
            [⟨LogType.Read, [], 4294967296, 9, none, ⟨none, none⟩,
              true⟩]).m_read_sequence_number <
        readBytes [⟨LogType.Read, [], 4294967296, 9, none, ⟨none, none⟩, true⟩] :=
  ⟨((claim_C9 (PCAPSSLCaptureLogger.construct true) [] rfl .Read [4] 4 9 none
        ⟨none, none⟩ true).1).1,
    (claim_C9 (PCAPSSLCaptureLogger.construct true) [] rfl .Read [4] 4 9 none
        ⟨none, none⟩ true).2.1
      [⟨LogType.Read, [], 4294967296, 9, none, ⟨none, none⟩, true⟩] (by decide)⟩

/-- C10: the public logging operations take a platform-width length but the
IPv4 frame synthesis receives a 16-bit value, so the frame is built with the
length reduced modulo 2^16; for a length of at least 2^16 the frame length
differs from the given length; concretely a call of length 70000 produces a
record whose frame length is 4464. -/
theorem claim_C10 (st : PCAPSSLCaptureLogger) (recs : List PCAPRecord)
    (h : st.m_file = some recs) (d : LogType) (pl : List Nat) (n : Nat) (sock : Int)
    (other : Option SockAddr) (res : Resolution) :
    (∃ r : PCAPRecord,
        (st.Log d pl n sock other res true).m_file = some (recs ++ [r]) ∧
          r.frame_length = n % 65536 ∧ (65536 ≤ n → r.frame_length ≠ n)) ∧
      ∃ r : PCAPRecord,
        ((PCAPSSLCaptureLogger.construct true).Log .Read [] 70000 5 none ⟨none, none⟩
            true).m_file = some ([] ++ [r]) ∧ r.frame_length = 4464 := by
  constructor
  · refine ⟨st.mkRecord d pl n other res, ?_, rfl, ?_⟩
    · cases d
      · rw [Log_read st recs h]; rfl
      · rw [Log_write st recs h]; rfl
    · intro h65
      rw [show (st.mkRecord d pl n other res).frame_length = n % 65536 from rfl]
      omega
  · exact ⟨⟨0, 0, zeroAddr, zeroAddr, 4464, []⟩, rfl, rfl⟩

/-- Witness for C10 at a concrete state and an oversized length. -/
theorem claim_C10_witness :
    ∃ r : PCAPRecord,
      ((PCAPSSLCaptureLogger.construct true).Log .Write [] 70000 5 none ⟨none, none⟩
          true).m_file = some ([] ++ [r]) ∧
        r.frame_length = 70000 % 65536 ∧ r.frame_length ≠ 70000 := by
  obtain ⟨r, h1, h2, h3⟩ :=
    (claim_C10 (PCAPSSLCaptureLogger.construct true) [] rfl .Write [] 70000 5 none
      ⟨none, none⟩).1
  exact ⟨r, h1, h2, h3 (by norm_num)⟩

/-- C8 as stated fails on the code: with a non-negative handle whose
getpeername and SO_ACCEPTCONN queries both fail, GetSocketState yields
"Unbound", not an explicit "Unknown"; and for a negative (invalid) handle it
yields an empty cell, outside the claimed result set. -/
theorem claim_C8_counterexample :
    GetSocketState 5 false none = "Unbound" ∧
      GetSocketState 5 false none ≠ "Unknown" ∧
      GetSocketState (-1) false none = "" ∧
      ("" : String) ∉ ["Connected", "Listening", "Unbound", "Unknown"] :=
  ⟨rfl, by decide, rfl, by decide⟩

/-- C8 amended: GetSocketState never raises and always returns one of the four
cell texts empty, "Connected", "Listening", "Unbound" — the empty cell for a
negative (invalid) handle, "Connected" when getpeername succeeds, "Listening"
when getpeername fails but the SO_ACCEPTCONN query succeeds with a positive
value, and "Unbound" in every remaining case, including when the underlying
introspection calls fail on a non-negative handle; the string "Unknown" is
never produced. -/
theorem claim_C8_amended (host_fd : Int) (peer_ok : Bool) (accept_result : Option Int) :
    (GetSocketState host_fd peer_ok accept_result = "" ∨
        GetSocketState host_fd peer_ok accept_result = "Connected" ∨
        GetSocketState host_fd peer_ok accept_result = "Listening" ∨
        GetSocketState host_fd peer_ok accept_result = "Unbound") ∧
      (host_fd < 0 → GetSocketState host_fd peer_ok accept_result = "") ∧
      (0 ≤ host_fd → peer_ok = true →
        GetSocketState host_fd peer_ok accept_result = "Connected") ∧
      (∀ v : Int, 0 ≤ host_fd → peer_ok = false → accept_result = some v → 0 < v →
        GetSocketState host_fd peer_ok accept_result = "Listening") ∧
      (∀ v : Int, 0 ≤ host_fd → peer_ok = false → accept_result = some v → v ≤ 0 →
        GetSocketState host_fd peer_ok accept_result = "Unbound") ∧
      (0 ≤ host_fd → peer_ok = false → accept_result = none →
        GetSocketState host_fd peer_ok accept_result = "Unbound") ∧
      ∀ (fd2 : Int) (p2 : Bool) (a2 : Option Int), GetSocketState fd2 p2 a2 ≠ "Unknown" := by
  refine ⟨GetSocketState_cases host_fd peer_ok accept_result, ?_, ?_, ?_, ?_, ?_, ?_⟩
  · intro hneg
    simp [GetSocketState, hneg]
  · intro hge hpt
    subst hpt
    simp [GetSocketState, not_lt.mpr hge]
  · intro v hge hpf hav hv
    subst hpf; subst hav
    simp [GetSocketState, not_lt.mpr hge, hv]
  · intro v hge hpf hav hv
    subst hpf; subst hav
    simp [GetSocketState, not_lt.mpr hge, not_lt.mpr hv]
  · intro hge hpf haf
    subst hpf; subst haf
    simp [GetSocketState, not_lt.mpr hge]
  · intro fd2 p2 a2
    rcases GetSocketState_cases fd2 p2 a2 with h | h | h | h <;> rw [h] <;> decide

/-- Witness for the amended C8, exercising every branch: a negative handle, a
succeeding getpeername, a positive accept result, a non-positive accept
result, and both introspection calls failing. -/
theorem claim_C8_witness :
    GetSocketState (-3) true (some 1) = "" ∧
      GetSocketState 7 true none = "Connected" ∧
      GetSocketState 7 false (some 2) = "Listening" ∧
      GetSocketState 7 false (some 0) = "Unbound" ∧
      GetSocketState 7 false none = "Unbound" ∧
      GetSocketState 7 false none ≠ "Unknown" :=
  ⟨(claim_C8_amended (-3) true (some 1)).2.1 (by norm_num),
    (claim_C8_amended 7 true none).2.2.1 (by norm_num) rfl,
    (claim_C8_amended 7 false (some 2)).2.2.2.1 2 (by norm_num) rfl rfl (by norm_num),
    (claim_C8_amended 7 false (some 0)).2.2.2.2.1 0 (by norm_num) rfl rfl (by norm_num),
    (claim_C8_amended 7 false none).2.2.2.2.2.1 (by norm_num) rfl rfl,
    (claim_C8_amended 7 false none).2.2.2.2.2.2 7 false none⟩
